import Mathlib

/-!
Verification of the three-dimensional vector core of the coordinates
library.  The Rust source stores three components of a generic
floating-point type and implements algebraic operations (negation,
addition, subtraction, scalar division, dot and cross products,
magnitude, angle between vectors), a derived partial order, and pure
conversions from cylindrical and spherical coordinates.

The embedding is generic over the scalar type: field arithmetic comes
from type classes, and the transcendental operations (square root, sine,
cosine, arc cosine) are passed explicitly as function arguments,
mirroring the way the source calls the corresponding methods of its
numeric trait.  Theorems over the real numbers instantiate them with
Real.sqrt, Real.sin, Real.cos and Real.arccos; executable checks
instantiate the algebraic operations at the rationals.
-/

namespace Coords

/-- A point in 3d space: left/right axis x, in/out axis y, up/down axis z. -/
structure Vector3 (α : Type) where
  x : α
  y : α
  z : α
deriving DecidableEq, Repr

/-- Cylindrical coordinates, consumed field-by-field by the conversions. -/
structure Cylindrical (α : Type) where
  radius : α
  azimuth : α
  height : α
deriving DecidableEq, Repr

/-- Spherical coordinates, consumed field-by-field by the conversions. -/
structure Spherical (α : Type) where
  radius : α
  azimuthal_angle : α
  polar_angle : α
deriving DecidableEq, Repr

namespace Vector3

variable {α : Type}

/-- The squared Euclidean length, as in quick_magnitude of the source. -/
def quick_magnitude [Mul α] [Add α] (v : Vector3 α) : α :=
  v.x * v.x + v.y * v.y + v.z * v.z

/-- The Euclidean length: square root of quick_magnitude, as in the source. -/
def magnitude [Mul α] [Add α] (sqrtf : α → α) (v : Vector3 α) : α :=
  sqrtf v.quick_magnitude

/-- The dot product of the source. -/
def dot [Mul α] [Add α] (a b : Vector3 α) : α :=
  a.x * b.x + a.y * b.y + a.z * b.z

/-- The cross product exactly as the source computes it, including the
z component written there as x1*y2 - y1 - x2. -/
def cross [Mul α] [Sub α] (a b : Vector3 α) : Vector3 α :=
  { x := a.y * b.z - a.z * b.y
    y := a.z * b.x - a.x * b.z
    z := a.x * b.y - a.y - b.x }

/-- Modelled from the spec: the reference cross-product formula of section
4.2, (y1*z2 - z1*y2, z1*x2 - x1*z2, x1*y2 - y1*x2), which the spec states
as the correctness contract for the cross product. -/
def specCross [Mul α] [Sub α] (a b : Vector3 α) : Vector3 α :=
  { x := a.y * b.z - a.z * b.y
    y := a.z * b.x - a.x * b.z
    z := a.x * b.y - a.y * b.x }

/-- The angle between two vectors, as in the source:
acos(dot(a,b) / (magnitude(a) * magnitude(b))). -/
def angle_to [Mul α] [Add α] [Div α] (sqrtf acosf : α → α) (a b : Vector3 α) : α :=
  acosf (a.dot b / (a.magnitude sqrtf * b.magnitude sqrtf))

/-- Componentwise negation of the source. -/
def neg [Neg α] (v : Vector3 α) : Vector3 α :=
  { x := -v.x, y := -v.y, z := -v.z }

/-- Componentwise addition of the source. -/
def add [Add α] (a b : Vector3 α) : Vector3 α :=
  { x := a.x + b.x, y := a.y + b.y, z := a.z + b.z }

/-- Componentwise subtraction of the source. -/
def sub [Sub α] (a b : Vector3 α) : Vector3 α :=
  { x := a.x - b.x, y := a.y - b.y, z := a.z - b.z }

/-- Scalar division of the source: each component divided by the scalar,
with no branch on the divisor. -/
def divScalar [Div α] (v : Vector3 α) (s : α) : Vector3 α :=
  { x := v.x / s, y := v.y / s, z := v.z / s }

/-- Conversion from a 3-tuple, as in the source From implementation. -/
def fromTuple (t : α × α × α) : Vector3 α :=
  { x := t.1, y := t.2.1, z := t.2.2 }

/-- Conversion into a 3-tuple, as in the source Into implementation. -/
def intoTuple (v : Vector3 α) : α × α × α :=
  (v.x, v.y, v.z)

/-- The seven named directional constants of the source constant table. -/
def ORIGIN [Zero α] : Vector3 α := { x := 0, y := 0, z := 0 }

/-- The up constant (0, 0, 1). -/
def UP [Zero α] [One α] : Vector3 α := { x := 0, y := 0, z := 1 }

/-- The down constant (0, 0, -1). -/
def DOWN [Zero α] [One α] [Neg α] : Vector3 α := { x := 0, y := 0, z := -1 }

/-- The forward constant (0, 1, 0). -/
def FORWARD [Zero α] [One α] : Vector3 α := { x := 0, y := 1, z := 0 }

/-- The back constant (0, -1, 0). -/
def BACK [Zero α] [One α] [Neg α] : Vector3 α := { x := 0, y := -1, z := 0 }

/-- The left constant (-1, 0, 0). -/
def LEFT [Zero α] [One α] [Neg α] : Vector3 α := { x := -1, y := 0, z := 0 }

/-- The right constant (1, 0, 0). -/
def RIGHT [Zero α] [One α] : Vector3 α := { x := 1, y := 0, z := 0 }

/-- By-value conversion from cylindrical coordinates, as in the source:
the sine and cosine of the azimuth are taken in one sin_cos call, then
x = radius * cos, y = radius * sin, z = height. -/
def fromCylindrical [Mul α] (sinf cosf : α → α) (cyl : Cylindrical α) : Vector3 α :=
  let sin := sinf cyl.azimuth
  let cos := cosf cyl.azimuth
  { x := cyl.radius * cos
    y := cyl.radius * sin
    z := cyl.height }

/-- By-reference conversion from cylindrical coordinates: the source
repeats the same body as the by-value implementation. -/
def fromCylindricalRef [Mul α] (sinf cosf : α → α) (cyl : Cylindrical α) : Vector3 α :=
  let sin := sinf cyl.azimuth
  let cos := cosf cyl.azimuth
  { x := cyl.radius * cos
    y := cyl.radius * sin
    z := cyl.height }

/-- By-reference conversion from spherical coordinates, as in the source:
x = r * sin(polar) * cos(azimuthal), y = r * sin(polar) * sin(azimuthal),
z = r * cos(polar). -/
def fromSphericalRef [Mul α] (sinf cosf : α → α) (sph : Spherical α) : Vector3 α :=
  let sin_az := sinf sph.azimuthal_angle
  let cos_az := cosf sph.azimuthal_angle
  let sin_pol := sinf sph.polar_angle
  let cos_pol := cosf sph.polar_angle
  { x := sph.radius * sin_pol * cos_az
    y := sph.radius * sin_pol * sin_az
    z := sph.radius * cos_pol }

/-- By-value conversion from spherical coordinates: the source delegates
to the by-reference implementation. -/
def fromSpherical [Mul α] (sinf cosf : α → α) (sph : Spherical α) : Vector3 α :=
  fromSphericalRef sinf cosf sph

end Vector3

/-- Comparison of two rationals, as the total order on non-NaN floats. -/
def qcmp (a b : ℚ) : Ordering :=
  if a < b then Ordering.lt else if a = b then Ordering.eq else Ordering.gt

/-- Comparison of two scalars in the float model: a scalar is either a
real numeric value (some q) or NaN (none); comparing with NaN yields no
ordering, otherwise the usual total order applies. -/
def fcmp : Option ℚ → Option ℚ → Option Ordering
  | some a, some b => some (qcmp a b)
  | _, _ => none

/-- The derived partial comparison on Vector3: Rust derives PartialOrd
field by field in declaration order, returning the first non-equal
field comparison (lexicographic), and propagating an incomparable field
result. -/
def vecCmp (a b : Vector3 (Option ℚ)) : Option Ordering :=
  match fcmp a.x b.x with
  | some Ordering.eq =>
    match fcmp a.y b.y with
    | some Ordering.eq => fcmp a.z b.z
    | c => c
  | c => c

/-- Injection of a NaN-free vector into the float model. -/
def liftQ (v : Vector3 ℚ) : Vector3 (Option ℚ) :=
  { x := some v.x, y := some v.y, z := some v.z }

/-- On NaN-free scalars the model comparison is the total one. -/
theorem fcmp_some (a b : ℚ) : fcmp (some a) (some b) = some (qcmp a b) := rfl

/-- NaN-free vectors are always comparable under the derived order. -/
theorem vecCmp_liftQ_isSome (a b : Vector3 ℚ) :
    (vecCmp (liftQ a) (liftQ b)).isSome = true := by
  unfold vecCmp liftQ
  cases h1 : fcmp (some a.x) (some b.x) with
  | none => simp [fcmp] at h1
  | some c1 =>
    cases c1 <;> simp_all
    cases h2 : fcmp (some a.y) (some b.y) with
    | none => simp [fcmp] at h2
    | some c2 =>
      cases c2 <;> simp_all [fcmp]

/-- The intended cross-product formula is anticommutative. -/
theorem specCross_anticomm (a b : Vector3 ℚ) :
    a.specCross b = (b.specCross a).neg := by
  simp only [Vector3.specCross, Vector3.neg, Vector3.mk.injEq]
  refine ⟨by ring, by ring, by ring⟩

/-- The derived comparison of NaN-free vectors is the lexicographic
comparison of the components in declaration order x, y, z. -/
theorem vecCmp_liftQ (a b : Vector3 ℚ) :
    vecCmp (liftQ a) (liftQ b) =
      some ((qcmp a.x b.x).then ((qcmp a.y b.y).then (qcmp a.z b.z))) := by
  unfold vecCmp liftQ
  cases h1 : qcmp a.x b.x <;> cases h2 : qcmp a.y b.y <;>
    simp_all [fcmp, Ordering.then]

/-- Claim C1 (code bug): at a = (0,0,0), b = (1,0,0) the source cross
product returns (0,0,-1), but the reference formula of the spec, whose z
component is x1*y2 - y1*x2, gives (0,0,0): the source z component is
written x1*y2 - y1 - x2 and deviates from the contract. -/
theorem C1_cross_deviates_from_reference :
    Vector3.cross (Vector3.mk (0 : ℚ) 0 0) (Vector3.mk 1 0 0) =
        Vector3.mk 0 0 (-1) ∧
    Vector3.specCross (Vector3.mk (0 : ℚ) 0 0) (Vector3.mk 1 0 0) =
        Vector3.mk 0 0 0 ∧
    Vector3.cross (Vector3.mk (0 : ℚ) 0 0) (Vector3.mk 1 0 0) ≠
      Vector3.specCross (Vector3.mk (0 : ℚ) 0 0) (Vector3.mk 1 0 0) := by
  refine ⟨?_, ?_, ?_⟩ <;>
    norm_num [Vector3.cross, Vector3.specCross, Vector3.mk.injEq]

/-- Claim C2 (code bug): anticommutativity fails for the source cross
product: at a = (0,0,0), b = (1,0,0) the code returns cross(a,b) =
(0,0,-1) while -cross(b,a) = (0,0,0). -/
theorem C2_anticommutativity_fails_on_code :
    Vector3.cross (Vector3.mk (0 : ℚ) 0 0) (Vector3.mk 1 0 0) =
        Vector3.mk 0 0 (-1) ∧
    (Vector3.cross (Vector3.mk (1 : ℚ) 0 0) (Vector3.mk 0 0 0)).neg =
        Vector3.mk 0 0 0 ∧
    Vector3.cross (Vector3.mk (0 : ℚ) 0 0) (Vector3.mk 1 0 0) ≠
      (Vector3.cross (Vector3.mk (1 : ℚ) 0 0) (Vector3.mk 0 0 0)).neg := by
  refine ⟨?_, ?_, ?_⟩ <;>
    norm_num [Vector3.cross, Vector3.neg, Vector3.mk.injEq]

/-- Claim C3 counterexample: the derived comparison of the NaN-free
vectors (0,1,0) and (1,0,0) returns Less, not no ordering: the claimed
componentwise-agreement characterization of comparability is false. -/
theorem C3_counterexample_comparison_is_lt :
    vecCmp (liftQ (Vector3.mk 0 1 0)) (liftQ (Vector3.mk 1 0 0)) =
        some Ordering.lt ∧
    vecCmp (liftQ (Vector3.mk 0 1 0)) (liftQ (Vector3.mk 1 0 0)) ≠ none := by
  refine ⟨by decide, by decide⟩

/-- Claim C3 amended: the derived ordering on Vector3 is the
lexicographic comparison of x, then y, then z; any two NaN-free vectors
are comparable, and (0,1,0) compares Less than (1,0,0). -/
theorem C3_order_is_lexicographic :
    (∀ a b : Vector3 ℚ, vecCmp (liftQ a) (liftQ b) =
        some ((qcmp a.x b.x).then ((qcmp a.y b.y).then (qcmp a.z b.z)))) ∧
    (∀ a b : Vector3 ℚ, (vecCmp (liftQ a) (liftQ b)).isSome = true) ∧
    vecCmp (liftQ (Vector3.mk 0 1 0)) (liftQ (Vector3.mk 1 0 0)) =
      some Ordering.lt :=
  ⟨vecCmp_liftQ, vecCmp_liftQ_isSome, by decide⟩

/-- Claim C4: spherical to Cartesian conversion returns
(r*sin(polar)*cos(azimuthal), r*sin(polar)*sin(azimuthal), r*cos(polar));
radius 1 and polar angle 0 give (0,0,1) for every azimuthal angle, and
radius 1, polar angle pi/2, azimuthal angle 0 give (1,0,0). -/
theorem C4_spherical_to_cartesian :
    (∀ sph : Spherical ℝ,
      Vector3.fromSphericalRef Real.sin Real.cos sph =
        Vector3.mk
          (sph.radius * Real.sin sph.polar_angle * Real.cos sph.azimuthal_angle)
          (sph.radius * Real.sin sph.polar_angle * Real.sin sph.azimuthal_angle)
          (sph.radius * Real.cos sph.polar_angle)) ∧
    (∀ az : ℝ,
      Vector3.fromSphericalRef Real.sin Real.cos (Spherical.mk 1 az 0) =
        Vector3.mk 0 0 1) ∧
    Vector3.fromSphericalRef Real.sin Real.cos
        (Spherical.mk 1 0 (Real.pi / 2)) = Vector3.mk 1 0 0 := by
  refine ⟨fun sph => rfl, fun az => ?_, ?_⟩
  · simp [Vector3.fromSphericalRef]
  · simp [Vector3.fromSphericalRef, Real.sin_pi_div_two, Real.cos_pi_div_two]

/-- Claim C5: cylindrical to Cartesian conversion returns
(radius*cos(azimuth), radius*sin(azimuth), height); radius 2, azimuth 0,
height 5 give (2,0,5). -/
theorem C5_cylindrical_to_cartesian :
    (∀ cyl : Cylindrical ℝ,
      Vector3.fromCylindrical Real.sin Real.cos cyl =
        Vector3.mk (cyl.radius * Real.cos cyl.azimuth)
          (cyl.radius * Real.sin cyl.azimuth) cyl.height) ∧
    Vector3.fromCylindrical Real.sin Real.cos (Cylindrical.mk 2 0 5) =
      Vector3.mk 2 0 5 := by
  refine ⟨fun cyl => rfl, ?_⟩
  simp [Vector3.fromCylindrical]

/-- Claim C6: for every cylindrical value and every spherical value the
by-value conversion and the by-reference conversion produce identical
results, for any scalar type and any sine and cosine implementations. -/
theorem C6_value_and_reference_conversions_agree {α : Type} [Mul α]
    (sinf cosf : α → α) :
    (∀ cyl : Cylindrical α,
      Vector3.fromCylindrical sinf cosf cyl =
        Vector3.fromCylindricalRef sinf cosf cyl) ∧
    (∀ sph : Spherical α,
      Vector3.fromSpherical sinf cosf sph =
        Vector3.fromSphericalRef sinf cosf sph) :=
  ⟨fun _ => rfl, fun _ => rfl⟩

/-- Claim C7: quick_magnitude is x*x + y*y + z*z, magnitude is its
square root, and the square of the magnitude recovers quick_magnitude
exactly over the real-number reading. -/
theorem C7_magnitude_squared_is_quick_magnitude :
    ∀ v : Vector3 ℝ,
      v.quick_magnitude = v.x * v.x + v.y * v.y + v.z * v.z ∧
      v.magnitude Real.sqrt = Real.sqrt v.quick_magnitude ∧
      v.magnitude Real.sqrt ^ 2 = v.quick_magnitude := by
  intro v
  refine ⟨rfl, rfl, ?_⟩
  have h : (0 : ℝ) ≤ v.quick_magnitude :=
    add_nonneg (add_nonneg (mul_self_nonneg _) (mul_self_nonneg _))
      (mul_self_nonneg _)
  simpa [Vector3.magnitude] using Real.sq_sqrt h

/-- Claim C8: angle_to is acos(dot(a,b) / (|a|*|b|)) with no
special-casing of zero-magnitude operands, its value lies in [0, pi],
and the named scenarios hold: the angle from UP to each horizontal unit
vector is pi/2 and the angle from UP to DOWN is pi. -/
theorem C8_angle_to_formula_and_scenarios :
    (∀ a b : Vector3 ℝ,
      Vector3.angle_to Real.sqrt Real.arccos a b =
        Real.arccos (a.dot b /
          (a.magnitude Real.sqrt * b.magnitude Real.sqrt)) ∧
      0 ≤ Vector3.angle_to Real.sqrt Real.arccos a b ∧
      Vector3.angle_to Real.sqrt Real.arccos a b ≤ Real.pi) ∧
    Vector3.angle_to Real.sqrt Real.arccos (Vector3.UP : Vector3 ℝ)
        Vector3.FORWARD = Real.pi / 2 ∧
    Vector3.angle_to Real.sqrt Real.arccos (Vector3.UP : Vector3 ℝ)
        Vector3.BACK = Real.pi / 2 ∧
    Vector3.angle_to Real.sqrt Real.arccos (Vector3.UP : Vector3 ℝ)
        Vector3.LEFT = Real.pi / 2 ∧
    Vector3.angle_to Real.sqrt Real.arccos (Vector3.UP : Vector3 ℝ)
        Vector3.RIGHT = Real.pi / 2 ∧
    Vector3.angle_to Real.sqrt Real.arccos (Vector3.UP : Vector3 ℝ)
        Vector3.DOWN = Real.pi := by
  refine ⟨fun a b => ⟨rfl, Real.arccos_nonneg _, Real.arccos_le_pi _⟩,
    ?_, ?_, ?_, ?_, ?_⟩ <;>
    simp [Vector3.angle_to, Vector3.dot, Vector3.magnitude,
      Vector3.quick_magnitude, Vector3.UP, Vector3.DOWN, Vector3.FORWARD,
      Vector3.BACK, Vector3.LEFT, Vector3.RIGHT, Real.arccos_zero,
      Real.arccos_neg_one]

/-- Claim C9: scalar division is componentwise and total: for every
vector and every scalar, including the scalar zero, the result is the
vector of componentwise quotients, with no branch on the divisor. -/
theorem C9_scalar_division_componentwise_total :
    ∀ (v : Vector3 ℝ) (s : ℝ),
      v.divScalar s = Vector3.mk (v.x / s) (v.y / s) (v.z / s) ∧
      v.divScalar 0 = Vector3.mk (v.x / 0) (v.y / 0) (v.z / 0) :=
  fun _ _ => ⟨rfl, rfl⟩

/-- Claim C10: converting a 3-tuple to a Vector3 and back is the
identity, and converting a Vector3 to a 3-tuple and back is the
identity. -/
theorem C10_tuple_conversions_roundtrip {α : Type} :
    (∀ t : α × α × α, Vector3.intoTuple (Vector3.fromTuple t) = t) ∧
    (∀ v : Vector3 α, Vector3.fromTuple (Vector3.intoTuple v) = v) :=
  ⟨fun _ => rfl, fun _ => rfl⟩

end Coords
